import Mathlib

/-!
Verification development for the QuantDesk signal bot (`src/signal_bot.py`).

The signal computation engine and its run-scheduling state machine are
shallowly embedded here:

* pandas `DataFrame`/`Series` cells become `Option ℚ` (a `none` cell models a
  NaN / missing observation; rationals stand in for floats — no claim settled
  here depends on binary floating-point rounding);
* the SPY price series used by `compute_tmem_regime` is a `List ℚ`
  (the code always feeds it a fetched adjusted-close series);
* Python exceptions become `Except SigError`;
* the external collaborators (yfinance fetches, Discord channels, the
  `channel.send` call, `datetime.now()`) are an explicit `Env` record and an
  explicit `MDate` argument: the embedding of a method is a pure function of
  the bot's state, the environment and the clock value.

Ordering note: pandas boolean masking and `Index.intersection` as used in the
source keep the universe's column order, and `sort_values` orders by score;
the embedding uses a stable insertion sort by descending score, matching the
spec's "ties retain the provider's original column iteration order".

Division by zero inside a momentum ratio would give `inf` in pandas; the
embedding maps it to a missing cell.  No claim below exercises a zero price.
-/

set_option maxHeartbeats 1000000
set_option maxRecDepth 8000

/-- Errors of the embedded engine: `insufficientData` models the
`ValueError("Need at least ... days of SPY data")` raised by
`compute_tmem_regime`; `indexError` models pandas' `IndexError` from
`.iloc[-1]` on a zero-row frame (and the unreachable empty-series case). -/
inductive SigError where
  | insufficientData
  | indexError
deriving DecidableEq, Repr

deriving instance DecidableEq for Except

/-- One column pair of the fetched universe: a ticker with its
adjusted-close price cells and its volume cells (one cell per row of the
common date axis; `none` is a missing observation). -/
structure TickerCol where
  ticker : String
  prices : List (Option ℚ)
  volume : List (Option ℚ)
deriving DecidableEq, Repr

/-- The `(prices, volume)` DataFrame pair returned by `fetch_universe_data`:
`nrows` is the length of the shared date index, `cols` the ticker columns
in provider order. -/
structure UniverseTable where
  nrows : ℕ
  cols : List TickerCol
deriving DecidableEq, Repr

/-- Cell of a column at row `i` (missing when out of range, like NaN). -/
def cellAt (l : List (Option ℚ)) (i : ℕ) : Option ℚ := l.getD i none

def optMul : Option ℚ → Option ℚ → Option ℚ
  | some a, some b => some (a * b)
  | _, _ => none

def optDiv : Option ℚ → Option ℚ → Option ℚ
  | some a, some b => if b = 0 then none else some (a / b)
  | _, _ => none

def optSub1 : Option ℚ → Option ℚ := Option.map (fun x => x - 1)

/-- Value of `series.shift(k)` read off at the last row (`.iloc[-1]`) of a
frame with `nr` rows: the cell at row `nr - 1 - k`, missing when the shift
runs off the front. -/
def shiftAt (nr k : ℕ) (l : List (Option ℚ)) : Option ℚ :=
  if k < nr then cellAt l (nr - 1 - k) else none

/-- 12-1 month momentum of one column at the latest date:
`(prices.shift(21) / prices.shift(252) - 1).iloc[-1]`. -/
def mom_12_1 (nr : ℕ) (c : TickerCol) : Option ℚ :=
  optSub1 (optDiv (shiftAt nr 21 c.prices) (shiftAt nr 252 c.prices))

/-- 6-month momentum proxy: `(prices.shift(21) / prices.shift(126) - 1).iloc[-1]`. -/
def mom_6m (nr : ℕ) (c : TickerCol) : Option ℚ :=
  optSub1 (optDiv (shiftAt nr 21 c.prices) (shiftAt nr 126 c.prices))

/-- 3-month momentum: `(prices.shift(21) / prices.shift(63) - 1).iloc[-1]`. -/
def mom_3m (nr : ℕ) (c : TickerCol) : Option ℚ :=
  optSub1 (optDiv (shiftAt nr 21 c.prices) (shiftAt nr 63 c.prices))

/-- `(prices * volume).rolling(60).mean().iloc[-1]` for one column:
defined only when the frame has at least 60 rows and every dollar-volume
cell of the trailing 60-row window is present (pandas' default
`min_periods = window`). -/
def adv_60 (nr : ℕ) (c : TickerCol) : Option ℚ :=
  if 60 ≤ nr then
    let cells := (List.range 60).map
      (fun j => optMul (cellAt c.prices (nr - 60 + j)) (cellAt c.volume (nr - 60 + j)))
    if cells.all (fun x => x.isSome) then
      some ((cells.foldr (fun x acc => x.getD 0 + acc) 0) / 60)
    else none
  else none

/-- `current_prices >= 5.0` filter on the last-row price (False on NaN). -/
def priceFilterB (nr : ℕ) (c : TickerCol) : Bool :=
  match cellAt c.prices (nr - 1) with
  | some p => decide (5 ≤ p)
  | none => false

/-- `adv_60 >= 20_000_000` filter (False on NaN). -/
def advFilterB (nr : ℕ) (c : TickerCol) : Bool :=
  match adv_60 nr c with
  | some a => decide (20000000 ≤ a)
  | none => false

/-- MEC earnings-confirmation proxy:
`(latest_6m > 0) | (latest_3m > 0)` (False on NaN). -/
def confirmB (nr : ℕ) (c : TickerCol) : Bool :=
  (match mom_6m nr c with | some v => decide (0 < v) | none => false) ||
  (match mom_3m nr c with | some v => decide (0 < v) | none => false)

/-- One row of the result lists built by the ranking functions. -/
structure RankedPick where
  rank : ℕ
  ticker : String
  momentum : ℚ
  price : ℚ
deriving DecidableEq, Repr

/-- Python's `round(x, 2)` on the embedded rationals (`round` is Mathlib's
round-half-up on ℚ; Python's float round-half-even differs only at exact
half-cent values, which no concrete input below hits). -/
def round2 (x : ℚ) : ℚ := ((round (x * 100) : ℤ) : ℚ) / 100

/-- Stable descending insertion by score: an element entering from the left
goes before the first strictly smaller score, so equal scores keep the
original (provider column) order — the spec's required stable sort. -/
def insertByScore (p : TickerCol × ℚ) : List (TickerCol × ℚ) → List (TickerCol × ℚ)
  | [] => [p]
  | q :: t => if q.2 ≤ p.2 then p :: q :: t else q :: insertByScore p t

/-- `sort_values(ascending=False)` on the eligible scores. -/
def sortByScoreDesc (l : List (TickerCol × ℚ)) : List (TickerCol × ℚ) :=
  l.foldr insertByScore []

/-- The `for rank, (ticker, score) in enumerate(top_n.items(), 1)` loop of
both ranking functions: rank `k` upward, momentum as a rounded percentage,
price as the rounded last-row price (`current_prices.get(ticker, 0)`). -/
def buildPicks (nr : ℕ) : ℕ → List (TickerCol × ℚ) → List RankedPick
  | _, [] => []
  | k, (c, s) :: rest =>
    { rank := k, ticker := c.ticker,
      momentum := round2 (s * 100),
      price := round2 ((cellAt c.prices (nr - 1)).getD 0) } :: buildPicks nr (k + 1) rest

/-- Eligible scored columns for TMEM: momentum defined, price filter,
liquidity filter — in provider column order. -/
def scoredTmem (t : UniverseTable) : List (TickerCol × ℚ) :=
  (t.cols.filter (fun c =>
      (mom_12_1 t.nrows c).isSome && priceFilterB t.nrows c && advFilterB t.nrows c)).map
    (fun c => (c, (mom_12_1 t.nrows c).getD 0))

/-- `compute_tmem_top_stocks(prices, volume, n_holdings)`
(src/signal_bot.py lines 156-199).  A zero-row frame raises pandas'
IndexError at `momentum.iloc[-1]`. -/
def compute_tmem_top_stocks (t : UniverseTable) (n_holdings : ℕ := 30) :
    Except SigError (List RankedPick) :=
  if t.nrows = 0 then .error .indexError
  else .ok (buildPicks t.nrows 1 ((sortByScoreDesc (scoredTmem t)).take n_holdings))

/-- Eligible scored columns for MEC: TMEM's filters plus the
earnings-confirmation proxy. -/
def scoredMec (t : UniverseTable) : List (TickerCol × ℚ) :=
  (t.cols.filter (fun c =>
      (mom_12_1 t.nrows c).isSome && priceFilterB t.nrows c && advFilterB t.nrows c &&
      confirmB t.nrows c)).map
    (fun c => (c, (mom_12_1 t.nrows c).getD 0))

/-- `compute_mec_top_stocks(prices, volume, n_holdings)`
(src/signal_bot.py lines 204-268). -/
def compute_mec_top_stocks (t : UniverseTable) (n_holdings : ℕ := 40) :
    Except SigError (List RankedPick) :=
  if t.nrows = 0 then .error .indexError
  else .ok (buildPicks t.nrows 1 ((sortByScoreDesc (scoredMec t)).take n_holdings))

/-- The dict returned by `compute_tmem_regime`. -/
structure RegimeResult where
  is_risk_on : Bool
  spy_price : ℚ
  sma_value : ℚ
  pct_diff : ℚ
deriving DecidableEq, Repr

/-- `compute_tmem_regime(spy_prices, sma_lookback)`
(src/signal_bot.py lines 126-153): raises the insufficient-data
`ValueError` when the series is shorter than the window; otherwise the SMA
is the mean of the trailing `sma_lookback` closes, `is_risk_on` is a strict
comparison, and `pct_diff` is the signed percent distance.  (`indexError`
covers the `iloc[-1]` of an empty series, reachable only with a zero
window.) -/
def compute_tmem_regime (spy_prices : List ℚ) (sma_lookback : ℕ := 200) :
    Except SigError RegimeResult :=
  if spy_prices.length < sma_lookback then .error .insufficientData
  else
    match spy_prices.getLast? with
    | none => .error .indexError
    | some current_price =>
      let sma := (spy_prices.drop (spy_prices.length - sma_lookback)).sum / sma_lookback
      .ok { is_risk_on := decide (sma < current_price),
            spy_price := round2 current_price,
            sma_value := round2 sma,
            pct_diff := round2 ((current_price / sma - 1) * 100) }

/-!
### Clock and date formatting

`datetime.now()` is modelled as an explicit `MDate` value threaded into every
embedded method and — faithfully to the source, which calls `datetime.now()`
*inside* each formatter — into the formatters as a separate argument.
`pyWeekday` is Python's `date.weekday()` (Monday = 0) computed by Sakamoto's
method, so only real calendar weekdays arise.
-/

structure MDate where
  year : ℕ
  month : ℕ
  day : ℕ
deriving DecidableEq, Repr

/-- Python `datetime.weekday()`: Monday = 0 … Sunday = 6. -/
def pyWeekday (d : MDate) : ℕ :=
  let y := if d.month < 3 then d.year - 1 else d.year
  let t := [0, 3, 2, 5, 0, 3, 5, 1, 4, 6, 2, 4]
  let sunday0 := (y + y / 4 - y / 100 + y / 400 + t.getD (d.month - 1) 0 + d.day) % 7
  (sunday0 + 6) % 7

def pad2 (n : ℕ) : String := if n < 10 then "0" ++ toString n else toString n

/-- `strftime("%Y-%m-%d")` — the daily run marker. -/
def dateKey (d : MDate) : String :=
  toString d.year ++ "-" ++ pad2 d.month ++ "-" ++ pad2 d.day

/-- `strftime("%Y-%m")` — the monthly run marker. -/
def monthKey (d : MDate) : String := toString d.year ++ "-" ++ pad2 d.month

def monthName (m : ℕ) : String :=
  ["January", "February", "March", "April", "May", "June", "July",
   "August", "September", "October", "November", "December"].getD (m - 1) ""

/-- `strftime("%B %d, %Y")` — the daily report date stamp. -/
def strftimeBdY (d : MDate) : String :=
  monthName d.month ++ " " ++ pad2 d.day ++ ", " ++ toString d.year

/-- `strftime("%B %Y")` — the monthly report date stamp. -/
def strftimeBY (d : MDate) : String := monthName d.month ++ " " ++ toString d.year

/-!
### Report formatters (src/signal_bot.py lines 273-389)

Numeric rendering: the regime prices are rounded to two decimals before
formatting, so `str(float)` prints at most two fractional digits; `ratRepr`
renders exactly that (with Python's trailing `.0` for whole values), and
`fmt2`/`fmt2plus` render the `:.2f` / `:+.2f` format specs.
-/

def ratRepr (x : ℚ) : String :=
  let c := (round (|x| * 100) : ℤ).toNat
  (if x < 0 then "-" else "") ++ toString (c / 100) ++ "." ++
    (if c % 100 = 0 then "0"
     else if c % 10 = 0 then toString (c % 100 / 10)
     else pad2 (c % 100))

def fmt2 (x : ℚ) : String :=
  let c := (round (|x| * 100) : ℤ).toNat
  (if x < 0 then "-" else "") ++ toString (c / 100) ++ "." ++ pad2 (c % 100)

def fmt2plus (x : ℚ) : String :=
  let c := (round (|x| * 100) : ℤ).toNat
  (if x < 0 then "-" else "+") ++ toString (c / 100) ++ "." ++ pad2 (c % 100)

def padRight (s : String) (w : ℕ) : String :=
  s ++ String.mk (List.replicate (w - s.length) ' ')

def padLeft (s : String) (w : ℕ) : String :=
  String.mk (List.replicate (w - s.length) ' ') ++ s

def dashes (n : ℕ) : String := String.mk (List.replicate n '─')

def rule25 : String := "━━━━━━━━━━━━━━━━━━━━━━━━━\n\n"

def statusText (b : Bool) : String := if b then "🟢 RISK-ON" else "🔴 RISK-OFF"

def disclaimerText : String :=
  "\n\n*⚠️ This is not financial advice. Past performance does not guarantee future results.*"

/-- The fixed-width table header line shared by both rebalance formatters. -/
def headerLine : String :=
  padRight "Rank" 6 ++ " " ++ padRight "Ticker" 8 ++ " " ++
  padRight "12-1 Mom %" 12 ++ " " ++ padLeft "Price" 8 ++ "\n"

def sepLine : String :=
  dashes 6 ++ " " ++ dashes 8 ++ " " ++ dashes 12 ++ " " ++ dashes 8 ++ "\n"

/-- One table row: `f"{rank:<6} {ticker:<8} {momentum:>+10.2f}%  ${price:>7.2f}\n"`. -/
def rowText (p : RankedPick) : String :=
  padRight (toString p.rank) 6 ++ " " ++ padRight p.ticker 8 ++ " " ++
  padLeft (fmt2plus p.momentum) 10 ++ "%  $" ++ padLeft (fmt2 p.price) 7 ++ "\n"

def rowsText (picks : List RankedPick) : String :=
  picks.foldr (fun p acc => rowText p ++ acc) ""

def dailyHead : String := "**📊 TMEM Daily Signal — "

def dailyTail (regime : RegimeResult) : String :=
  "**\n" ++ rule25 ++
  "**Regime: " ++ statusText regime.is_risk_on ++ "**\n\n" ++
  "SPY: **$" ++ ratRepr regime.spy_price ++ "**\n" ++
  "200-day SMA: **$" ++ ratRepr regime.sma_value ++ "**\n" ++
  "SPY is **" ++ fmt2 |regime.pct_diff| ++ "%** " ++
  (if regime.is_risk_on then "above" else "below") ++ " the 200-SMA\n\n" ++
  (if regime.is_risk_on then
    "**Action:** Hold top 30 momentum stocks.\nPortfolio remains fully invested in equities."
   else
    "**Action:** Move to defensive allocation (cash/T-bills).\nCapital preservation mode active.") ++
  disclaimerText

/-- `format_tmem_daily_signal(regime)` (lines 273-303); `now` is the value
`datetime.now()` read by the formatter itself. -/
def format_tmem_daily_signal (now : MDate) (regime : RegimeResult) : String :=
  dailyHead ++ (strftimeBdY now ++ dailyTail regime)

def defensiveBody : String :=
  "SPY is **below** the 200-day SMA.\n" ++
  "**Action:** 100% defensive — hold cash/T-bills (BIL).\n" ++
  ("No equity positions this month.\n\n" ++
   "*Portfolio will re-enter equities when SPY crosses above the 200-SMA.*")

def tmemInstructions : String :=
  "**Rebalance instructions:**\n" ++
  "• Equal-weight all 30 stocks at ~3.33% each\n" ++
  "• Sell any stocks no longer in the top 30\n" ++
  "• Buy new entries at equal weight\n" ++
  "• Next rebalance: 1st trading day of next quarter (Jan/Apr/Jul/Oct)"

def tmemMonthlyHead : String := "**📊 TMEM Quarterly Rebalance — "

def tmemMonthlyTail (regime : RegimeResult) (picks : List RankedPick) : String :=
  "**\n" ++ rule25 ++
  "**Regime: " ++ statusText regime.is_risk_on ++ "**\n\n" ++
  (if regime.is_risk_on then
     "**Top 30 Momentum Stocks — Equal Weight (3.33% each):**\n\n" ++
     ("```\n" ++ (headerLine ++ (sepLine ++ rowsText picks ++ "```\n\n" ++ tmemInstructions)))
   else defensiveBody) ++
  disclaimerText

/-- `format_tmem_monthly_picks(regime, picks)` (lines 306-350). -/
def format_tmem_monthly_picks (now : MDate) (regime : RegimeResult)
    (picks : List RankedPick) : String :=
  tmemMonthlyHead ++ (strftimeBY now ++ tmemMonthlyTail regime picks)

def mecInstructions : String :=
  "**Rebalance instructions:**\n" ++
  "• Equal-weight all 40 stocks at 2.50% each\n" ++
  "• Sell any stocks no longer in the top 40\n" ++
  "• Buy new entries at equal weight\n" ++
  "• MEC remains fully invested — no market timing\n" ++
  "• Next rebalance: 1st trading day of next month"

def mecHead : String := "**📊 MEC Monthly Rebalance — "

def mecTail (picks : List RankedPick) : String :=
  "**\n" ++ rule25 ++
  "**Top 40 Momentum + Earnings Confirmed Stocks**\n" ++
  "Equal Weight (2.50% each) | Fully Invested\n\n" ++
  ("```\n" ++ (headerLine ++ (sepLine ++ rowsText picks ++ "```\n\n" ++ mecInstructions))) ++
  disclaimerText

/-- `format_mec_monthly_picks(picks)` (lines 353-389). -/
def format_mec_monthly_picks (now : MDate) (picks : List RankedPick) : String :=
  mecHead ++ (strftimeBY now ++ mecTail picks)

/-!
### Scheduler (src/signal_bot.py lines 394-582)

`SignalBot`'s mutable fields become `RunState`; the external collaborators
become `Env`:

* `spy_data` is the adjusted-close SPY series the method extracts from the
  fetched frame (`[]` models a failed/empty fetch — for the daily run the
  code returns on `spy_data.empty`; for the monthly run an empty frame has
  no `Close` column, so the column lookup raises a `KeyError` that the
  shared `except` swallows);
* `univ` (`universe` is a Lean keyword) is the `(prices, volume)` pair from `fetch_universe_data`
  (`prices.empty` is `nrows = 0 ∨ cols = []`);
* `tmem_channel` / `mec_channel` say whether `get_channel` finds the
  destination channel;
* `send_tmem_ok` / `send_mec_ok` say whether the corresponding
  `channel.send` succeeds or raises (a raise is swallowed by the method's
  `except`, aborting the rest of its `try` block).

A method returns its new state plus the list of `(channel name, message)`
publications actually sent, in order — including those sent before a later
raise inside the same `try` block.  All `datetime.now()` reads within one
tick see the same `today`.
-/

structure RunState where
  last_daily_run : Option String
  last_monthly_run : Option String
deriving DecidableEq, Repr

structure Env where
  spy_data : List ℚ
  univ : UniverseTable
  tmem_channel : Bool
  mec_channel : Bool
  send_tmem_ok : Bool
  send_mec_ok : Bool

def tmemChannelName : String := "📊-tmem-signals"

def mecChannelName : String := "📊-mec-signals"

/-- `SignalBot.run_daily_tmem_signal` (lines 413-458): guard on the daily
marker, fetch, regime, format, find channel, send; the marker is set after
the channel branch — also when the channel was *not found* — but not when
the fetch failed or `compute_tmem_regime`/`send` raised. -/
def run_daily_tmem_signal (st : RunState) (env : Env) (today : MDate) :
    RunState × List (String × String) :=
  let todayStr := dateKey today
  if st.last_daily_run = some todayStr then (st, [])
  else if env.spy_data = [] then (st, [])
  else
    match compute_tmem_regime env.spy_data 200 with
    | .error _ => (st, [])
    | .ok regime =>
      let msg := format_tmem_daily_signal today regime
      if env.tmem_channel then
        if env.send_tmem_ok then
          ({ st with last_daily_run := some todayStr }, [(tmemChannelName, msg)])
        else (st, [])
      else ({ st with last_daily_run := some todayStr }, [])

/-- `today.month in [1, 4, 7, 10]`. -/
def isQuarterMonth (m : ℕ) : Bool := m == 1 || m == 4 || m == 7 || m == 10

/-- The MEC half of `run_monthly_rebalance` (lines 518-529), entered with
the publications already sent by the TMEM half: compute, format, find
channel, send, then set the monthly marker (also when the channel was not
found). -/
def mecStep (st : RunState) (env : Env) (today : MDate) (mk : String)
    (pubs : List (String × String)) : RunState × List (String × String) :=
  match compute_mec_top_stocks env.univ 40 with
  | .error _ => (st, pubs)
  | .ok mec_picks =>
    let msg := format_mec_monthly_picks today mec_picks
    if env.mec_channel && !env.send_mec_ok then (st, pubs)
    else
      ({ st with last_monthly_run := some mk },
       pubs ++ (if env.mec_channel then [(mecChannelName, msg)] else []))

/-- `SignalBot.run_monthly_rebalance` (lines 460-532): monthly-marker and
day-of-month guards, one shared `try` for both strategies — a raise in the
TMEM (quarter-month) half aborts the MEC half and leaves the marker
untouched. -/
def run_monthly_rebalance (st : RunState) (env : Env) (today : MDate) :
    RunState × List (String × String) :=
  let mk := monthKey today
  if st.last_monthly_run = some mk then (st, [])
  else if 3 < today.day then (st, [])
  else if env.univ.nrows = 0 || env.univ.cols.isEmpty then (st, [])
  else if env.spy_data = [] then (st, [])
  else if isQuarterMonth today.month then
    match compute_tmem_regime env.spy_data 200 with
    | .error _ => (st, [])
    | .ok regime =>
      match (if regime.is_risk_on then compute_tmem_top_stocks env.univ 30
             else .ok []) with
      | .error _ => (st, [])
      | .ok tmem_picks =>
        let msg := format_tmem_monthly_picks today regime tmem_picks
        if env.tmem_channel && !env.send_tmem_ok then (st, [])
        else mecStep st env today mk
               (if env.tmem_channel then [(tmemChannelName, msg)] else [])
  else mecStep st env today mk []

/-- `SignalBot.run_all_signals` (lines 534-544): daily on weekdays, monthly
on the 1st-3rd of weekdays, sequentially on the same state. -/
def run_all_signals (st : RunState) (env : Env) (today : MDate) :
    RunState × List (String × String) :=
  let r1 := if pyWeekday today < 5 then run_daily_tmem_signal st env today else (st, [])
  let r2 := if today.day ≤ 3 && pyWeekday today < 5
            then run_monthly_rebalance r1.1 env today else (r1.1, [])
  (r2.1, r1.2 ++ r2.2)

/-- The admin `!signals` force-run command (`cmd_force_signals`, lines
573-582): it awaits `run_all_signals` — the same entry point the scheduled
task drives; its `ctx.send` acknowledgements are operator chatter, not
signal publications. -/
def cmd_force_signals (st : RunState) (env : Env) (today : MDate) :
    RunState × List (String × String) :=
  run_all_signals st env today

/-!
### Predicates and helpers used by the theorems below
-/

/-- `strMatches needle hay`: `needle` is a (character) prefix of `hay`. -/
def strMatches : List Char → List Char → Bool
  | [], _ => true
  | _ :: _, [] => false
  | a :: as, b :: bs => a == b && strMatches as bs

/-- `subListB needle hay`: `needle` occurs contiguously inside `hay`. -/
def subListB (needle : List Char) : List Char → Bool
  | [] => needle.isEmpty
  | h :: t => strMatches needle (h :: t) || subListB needle t

/-- `hasSub hay needle`: `needle` is a substring of `hay`. -/
def hasSub (hay needle : String) : Bool := subListB needle.data hay.data

/-- Adjacent scores are non-increasing (weakly descending). -/
def chainDescB : List (TickerCol × ℚ) → Bool
  | [] => true
  | [_] => true
  | a :: b :: t => decide (b.2 ≤ a.2) && chainDescB (b :: t)

/-- Adjacent momenta of a pick list are non-increasing. -/
def momDescB : List RankedPick → Bool
  | [] => true
  | [_] => true
  | a :: b :: t => decide (b.momentum ≤ a.momentum) && momDescB (b :: t)

/-- Adjacent momenta are *strictly* decreasing — the claim's
"sorted strictly descending by momentum_score". -/
def momStrictDescB : List RankedPick → Bool
  | [] => true
  | [_] => true
  | a :: b :: t => decide (b.momentum < a.momentum) && momStrictDescB (b :: t)

/-- Ranks are contiguous starting from `k`. -/
def ranksFrom (k : ℕ) : List RankedPick → Bool
  | [] => true
  | p :: t => (p.rank == k) && ranksFrom (k + 1) t

/-- The universe table of the C6 counterexample: 253 rows, two tickers
with identical series (price 10 throughout except 20 at the 12-1 momentum
anchor row, constant volume 10M), so both carry the same momentum of
exactly +100% and pass every eligibility filter. -/
def cexTable : UniverseTable :=
  { nrows := 253,
    cols := [
      { ticker := "AAA",
        prices := (List.range 253).map (fun i => some (if i = 231 then (20 : ℚ) else 10)),
        volume := (List.range 253).map (fun _ => some (10000000 : ℚ)) },
      { ticker := "BBB",
        prices := (List.range 253).map (fun i => some (if i = 231 then (20 : ℚ) else 10)),
        volume := (List.range 253).map (fun _ => some (10000000 : ℚ)) } ] }

/-!
### Shared concrete fixtures for witnesses and counterexamples
-/

/-- A healthy environment: 200 days of SPY at 100, a one-row one-ticker
universe, both channels present, both sends succeeding. -/
def envGood : Env :=
  { spy_data := List.replicate 200 (100 : ℚ),
    univ := { nrows := 1,
              cols := [{ ticker := "AAPL", prices := [some 10], volume := [some 10] }] },
    tmem_channel := true, mec_channel := true,
    send_tmem_ok := true, send_mec_ok := true }

/-- Healthy data, but neither destination channel exists. -/
def envNoCh : Env := { envGood with tmem_channel := false, mec_channel := false }

/-- Healthy data, but the TMEM channel is missing. -/
def envNoTmemCh : Env := { envGood with tmem_channel := false }

/-- Healthy except the SPY series is too short for the 200-day SMA. -/
def envShortSpy : Env := { envGood with spy_data := List.replicate 100 (100 : ℚ) }

/-- `true` iff no publication in the list is addressed to the MEC channel. -/
def noMecPub (pubs : List (String × String)) : Bool :=
  pubs.all (fun p => p.1 != mecChannelName)

/-!
### C7 — insufficient-data behaviour of the regime detector
-/

/-- C7: for every price series and window, `compute_tmem_regime` fails with
the insufficient-data error exactly when the series has fewer than
`smaWindow` observations; with at least that many it never raises it. -/
theorem C7_insufficient_data_iff (spy : List ℚ) (w : ℕ) :
    compute_tmem_regime spy w = .error .insufficientData ↔ spy.length < w := by
  unfold compute_tmem_regime
  by_cases h : spy.length < w
  · simp [h]
  · simp only [if_neg h]
    cases hl : spy.getLast? <;> simp [h]

/-!
### C4 — empty / missing universe table
-/

/-- C4 counterexample: on the zero-row table that a failed fetch produces,
both ranking functions fail with the index error raised by
`momentum.iloc[-1]` instead of returning an empty sequence. -/
theorem C4_counterexample :
    compute_tmem_top_stocks ⟨0, []⟩ 30 = .error .indexError ∧
    compute_mec_top_stocks ⟨0, []⟩ 40 = .error .indexError :=
  ⟨rfl, rfl⟩

/-- C4 amended: with a nonempty date axis and no ticker columns both
ranking functions return an empty list; with a zero-row table they raise an
index error (the scheduler's `prices.empty` guard keeps that case away from
them). -/
theorem C4_amended (nr n : ℕ) :
    (1 ≤ nr → compute_tmem_top_stocks ⟨nr, []⟩ n = .ok [] ∧
              compute_mec_top_stocks ⟨nr, []⟩ n = .ok []) ∧
    (nr = 0 → compute_tmem_top_stocks ⟨nr, []⟩ n = .error .indexError ∧
              compute_mec_top_stocks ⟨nr, []⟩ n = .error .indexError) := by
  constructor
  · intro h
    have h0 : nr ≠ 0 := by omega
    constructor <;>
      simp [compute_tmem_top_stocks, compute_mec_top_stocks, h0, scoredTmem, scoredMec,
            sortByScoreDesc, buildPicks]
  · intro h
    subst h
    exact ⟨rfl, rfl⟩

/-- C4 witness. -/
theorem C4_witness :
    (compute_tmem_top_stocks ⟨1, []⟩ 5 = .ok [] ∧
     compute_mec_top_stocks ⟨1, []⟩ 5 = .ok []) ∧
    (compute_tmem_top_stocks ⟨0, []⟩ 5 = .error .indexError ∧
     compute_mec_top_stocks ⟨0, []⟩ 5 = .error .indexError) :=
  ⟨(C4_amended 1 5).1 (by decide), (C4_amended 0 5).2 rfl⟩

/-!
### C1 — the force-run command does not bypass the guards
-/

/-- C1 counterexample: with a fully healthy environment, on a weekday
inside the grace window, a forced invocation whose state already carries
today's daily marker and this month's monthly marker computes and publishes
*nothing* — the run-state guards apply to the force-run path too. -/
theorem C1_counterexample :
    cmd_force_signals ⟨some "2025-12-01", some "2025-12"⟩ envGood ⟨2025, 12, 1⟩ =
      (⟨some "2025-12-01", some "2025-12"⟩, []) := by
  decide

/-- C1 amended: the admin force-run executes the same `run_all_signals`
entry point as the scheduled task, so it is subject to the same run-state
guards rather than bypassing them: whenever both last-run markers already
cover the current period it is a complete no-op, leaving the markers
exactly as the natural cycle left them. -/
theorem C1_amended (st : RunState) (env : Env) (t : MDate)
    (hd : st.last_daily_run = some (dateKey t))
    (hm : st.last_monthly_run = some (monthKey t)) :
    cmd_force_signals st env t = (st, []) := by
  have h1 : run_daily_tmem_signal st env t = (st, []) := by
    unfold run_daily_tmem_signal
    simp [hd]
  have h2 : run_monthly_rebalance st env t = (st, []) := by
    unfold run_monthly_rebalance
    simp [hm]
  unfold cmd_force_signals run_all_signals
  simp [h1, h2]

/-- C1 witness. -/
theorem C1_witness :
    cmd_force_signals ⟨some "2026-03-02", some "2026-03"⟩ envGood ⟨2026, 3, 2⟩ =
      (⟨some "2026-03-02", some "2026-03"⟩, []) :=
  C1_amended _ _ _ (by decide) (by decide)

/-!
### C2 — failures and RunState
-/

/-- `mecStep` leaves the state unchanged when the MEC channel exists but
its send raises. -/
theorem mecStep_state_of_send_fail (st : RunState) (env : Env) (t : MDate)
    (mk : String) (pubs : List (String × String))
    (hc : env.mec_channel = true) (hs : env.send_mec_ok = false) :
    (mecStep st env t mk pubs).1 = st := by
  unfold mecStep
  split
  · rfl
  · simp [hc, hs]

/-- C2 counterexample: with healthy data but the destination channel *not
found*, the daily cycle publishes nothing yet still sets `_last_daily_run`
— the claim's "destination channel not being found" case does mutate
RunState, so that failure is not retried on the next tick. -/
theorem C2_counterexample :
    (run_daily_tmem_signal ⟨none, none⟩ envNoTmemCh ⟨2026, 2, 3⟩).2 = [] ∧
    (run_daily_tmem_signal ⟨none, none⟩ envNoTmemCh ⟨2026, 2, 3⟩).1.last_daily_run =
      some "2026-02-03" := by
  constructor
  · decide
  · decide

/-- C2 amended: a failed data fetch, a raise inside the computation, or a
raising `send` aborts the cycle with RunState untouched (so it is retried
next tick); but when the destination channel is merely *not found* the code
logs a warning and still marks the period done (see the counterexample). -/
theorem C2_amended (st : RunState) (env : Env) (t : MDate) :
    (env.spy_data = [] → run_daily_tmem_signal st env t = (st, [])) ∧
    (env.tmem_channel = true → env.send_tmem_ok = false →
      run_daily_tmem_signal st env t = (st, [])) ∧
    (env.univ.nrows = 0 ∨ env.univ.cols = [] → run_monthly_rebalance st env t = (st, [])) ∧
    (env.spy_data = [] → run_monthly_rebalance st env t = (st, [])) ∧
    (env.mec_channel = true → env.send_mec_ok = false →
      (run_monthly_rebalance st env t).1 = st) := by
  refine ⟨?_, ?_, ?_, ?_, ?_⟩
  · intro h
    unfold run_daily_tmem_signal
    simp [h]
  · intro hc hs
    by_cases hg : st.last_daily_run = some (dateKey t)
    · simp [run_daily_tmem_signal, hg]
    · by_cases hsp : env.spy_data = []
      · simp [run_daily_tmem_signal, hg, hsp]
      · cases hr : compute_tmem_regime env.spy_data 200 with
        | error e => simp [run_daily_tmem_signal, hg, hsp, hr]
        | ok regime => simp [run_daily_tmem_signal, hg, hsp, hr, hc, hs]
  · intro h
    unfold run_monthly_rebalance
    have hb : (decide (env.univ.nrows = 0) || env.univ.cols.isEmpty) = true := by
      rcases h with h | h <;> simp [h]
    simp [hb]
  · intro h
    unfold run_monthly_rebalance
    simp [h]
  · intro hc hs
    by_cases h1 : st.last_monthly_run = some (monthKey t)
    · simp [run_monthly_rebalance, h1]
    · by_cases h2 : 3 < t.day
      · simp [run_monthly_rebalance, h1, h2]
      · by_cases h3 : (decide (env.univ.nrows = 0) || env.univ.cols.isEmpty) = true
        · simp [run_monthly_rebalance, h1, h2, h3]
        · by_cases h4 : env.spy_data = []
          · simp [run_monthly_rebalance, h1, h2, h3, h4]
          · by_cases h5 : isQuarterMonth t.month = true
            · cases hr : compute_tmem_regime env.spy_data 200 with
              | error e => simp [run_monthly_rebalance, h1, h2, h3, h4, h5, hr]
              | ok regime =>
                cases hp : (if regime.is_risk_on then compute_tmem_top_stocks env.univ 30
                            else .ok []) with
                | error e => simp [run_monthly_rebalance, h1, h2, h3, h4, h5, hr, hp]
                | ok picks =>
                  by_cases h6 : (env.tmem_channel && !env.send_tmem_ok) = true
                  · simp [run_monthly_rebalance, h1, h2, h3, h4, h5, hr, hp, h6]
                  · simp [run_monthly_rebalance, h1, h2, h3, h4, h5, hr, hp, h6]
                    exact mecStep_state_of_send_fail _ _ _ _ _ hc hs
            · simp [run_monthly_rebalance, h1, h2, h3, h4, h5]
              exact mecStep_state_of_send_fail _ _ _ _ _ hc hs

/-- C2 witness. -/
theorem C2_witness :
    (run_daily_tmem_signal ⟨none, none⟩ { envGood with spy_data := [] } ⟨2026, 2, 5⟩ =
       (⟨none, none⟩, [])) ∧
    (run_daily_tmem_signal ⟨none, none⟩ { envGood with send_tmem_ok := false } ⟨2026, 2, 5⟩ =
       (⟨none, none⟩, [])) ∧
    (run_monthly_rebalance ⟨none, none⟩ { envGood with univ := ⟨0, []⟩ } ⟨2026, 2, 2⟩ =
       (⟨none, none⟩, [])) ∧
    (run_monthly_rebalance ⟨none, none⟩ { envGood with spy_data := [] } ⟨2026, 2, 2⟩ =
       (⟨none, none⟩, [])) ∧
    ((run_monthly_rebalance ⟨none, none⟩ { envGood with send_mec_ok := false } ⟨2026, 2, 2⟩).1 =
       ⟨none, none⟩) :=
  ⟨(C2_amended _ _ _).1 rfl,
   (C2_amended _ _ _).2.1 rfl rfl,
   (C2_amended _ _ _).2.2.1 (Or.inr rfl),
   (C2_amended _ _ _).2.2.2.1 rfl,
   (C2_amended _ _ _).2.2.2.2 rfl rfl⟩

/-!
### Scheduler helper lemmas
-/

/-- The daily cycle never touches the monthly marker. -/
theorem run_daily_monthly_marker (st : RunState) (env : Env) (t : MDate) :
    (run_daily_tmem_signal st env t).1.last_monthly_run = st.last_monthly_run := by
  by_cases hg : st.last_daily_run = some (dateKey t)
  · simp [run_daily_tmem_signal, hg]
  · by_cases hsp : env.spy_data = []
    · simp [run_daily_tmem_signal, hg, hsp]
    · cases hr : compute_tmem_regime env.spy_data 200 with
      | error e => simp [run_daily_tmem_signal, hg, hsp, hr]
      | ok regime =>
        cases hch : env.tmem_channel with
        | false => simp [run_daily_tmem_signal, hg, hsp, hr, hch]
        | true =>
          cases hsend : env.send_tmem_ok with
          | false => simp [run_daily_tmem_signal, hg, hsp, hr, hch, hsend]
          | true => simp [run_daily_tmem_signal, hg, hsp, hr, hch, hsend]

/-- The daily cycle publishes only to the TMEM channel. -/
theorem run_daily_pubs_tmem_only (st : RunState) (env : Env) (t : MDate) :
    noMecPub (run_daily_tmem_signal st env t).2 = true := by
  by_cases hg : st.last_daily_run = some (dateKey t)
  · simp [run_daily_tmem_signal, hg, noMecPub]
  · by_cases hsp : env.spy_data = []
    · simp [run_daily_tmem_signal, hg, hsp, noMecPub]
    · cases hr : compute_tmem_regime env.spy_data 200 with
      | error e => simp [run_daily_tmem_signal, hg, hsp, hr, noMecPub]
      | ok regime =>
        cases hch : env.tmem_channel with
        | false => simp [run_daily_tmem_signal, hg, hsp, hr, hch, noMecPub]
        | true =>
          cases hsend : env.send_tmem_ok with
          | false => simp [run_daily_tmem_signal, hg, hsp, hr, hch, hsend, noMecPub]
          | true =>
            simp [run_daily_tmem_signal, hg, hsp, hr, hch, hsend, noMecPub]
            decide

/-- A series long enough for the window makes `compute_tmem_regime` succeed. -/
theorem compute_tmem_regime_ok {l : List ℚ} (h : 200 ≤ l.length) :
    ∃ r, compute_tmem_regime l 200 = .ok r := by
  unfold compute_tmem_regime
  have h1 : ¬ l.length < 200 := by omega
  have hne : l ≠ [] := by
    intro e
    subst e
    simp at h
  obtain ⟨x, hx⟩ : ∃ x, l.getLast? = some x := by
    cases hl : l.getLast? with
    | none => exact absurd (List.getLast?_eq_none_iff.mp hl) hne
    | some x => exact ⟨x, rfl⟩
  simp [h1, hx]

/-- A table with at least one row never raises in TMEM ranking. -/
theorem compute_tmem_top_stocks_ok {t : UniverseTable} (h : 1 ≤ t.nrows) (n : ℕ) :
    ∃ l, compute_tmem_top_stocks t n = .ok l := by
  unfold compute_tmem_top_stocks
  have h0 : t.nrows ≠ 0 := by omega
  simp [h0]

/-- A table with at least one row never raises in MEC ranking. -/
theorem compute_mec_top_stocks_ok {t : UniverseTable} (h : 1 ≤ t.nrows) (n : ℕ) :
    ∃ l, compute_mec_top_stocks t n = .ok l := by
  unfold compute_mec_top_stocks
  have h0 : t.nrows ≠ 0 := by omega
  simp [h0]

/-- Under a due month and a healthy environment the monthly cycle runs to
completion and sets the monthly marker. -/
theorem run_monthly_triggers (st : RunState) (env : Env) (t : MDate)
    (hg : st.last_monthly_run ≠ some (monthKey t)) (hday : t.day ≤ 3)
    (hspy : 200 ≤ env.spy_data.length) (hrows : 1 ≤ env.univ.nrows)
    (hcols : env.univ.cols ≠ [])
    (htc : env.tmem_channel = true → env.send_tmem_ok = true)
    (hmc : env.mec_channel = true → env.send_mec_ok = true) :
    (run_monthly_rebalance st env t).1.last_monthly_run = some (monthKey t) := by
  have h2 : ¬ 3 < t.day := by omega
  have hnr : env.univ.nrows ≠ 0 := by omega
  have h3 : ¬ (decide (env.univ.nrows = 0) || env.univ.cols.isEmpty) = true := by
    simp [hnr, List.isEmpty_iff, hcols]
  have h4 : env.spy_data ≠ [] := by
    intro e
    rw [e] at hspy
    simp at hspy
  have h6 : (env.tmem_channel && !env.send_tmem_ok) = false := by
    cases htcb : env.tmem_channel with
    | false => simp
    | true => simp [htc htcb]
  have h7mec : ∀ pubs, (mecStep st env t (monthKey t) pubs).1.last_monthly_run =
      some (monthKey t) := by
    intro pubs
    obtain ⟨l, hl⟩ := compute_mec_top_stocks_ok hrows 40
    have h8 : (env.mec_channel && !env.send_mec_ok) = false := by
      cases hmcb : env.mec_channel with
      | false => simp
      | true => simp [hmc hmcb]
    simp [mecStep, hl, h8]
  by_cases h5 : isQuarterMonth t.month = true
  · obtain ⟨r, hr⟩ := compute_tmem_regime_ok hspy
    obtain ⟨pl, hpl⟩ : ∃ pl,
        (if r.is_risk_on then compute_tmem_top_stocks env.univ 30 else .ok []) = .ok pl := by
      cases hrisk : r.is_risk_on with
      | true => simpa [hrisk] using compute_tmem_top_stocks_ok hrows 30
      | false => exact ⟨[], by simp [hrisk]⟩
    simp [run_monthly_rebalance, hg, h2, h3, h4, h5, hr, hpl, h6]
    exact h7mec _
  · simp [run_monthly_rebalance, hg, h2, h3, h4, h5]
    exact h7mec _

/-!
### C3 — idempotence of the tick entry point
-/

/-- C3: after a first tick that succeeded (it left the daily marker at
today's date and — when the monthly cycle was due — the monthly marker at
this month), a second tick with the same `(date, weekday)` is a complete
no-op: no further publication for either cycle and an unchanged state, so
both cycles publish exactly once. -/
theorem C3_second_tick_noop (st : RunState) (env : Env) (t : MDate)
    (st1 : RunState) (pubs1 : List (String × String))
    (_hfirst : run_all_signals st env t = (st1, pubs1))
    (hd : pyWeekday t < 5 → st1.last_daily_run = some (dateKey t))
    (hm : t.day ≤ 3 → pyWeekday t < 5 → st1.last_monthly_run = some (monthKey t)) :
    run_all_signals st1 env t = (st1, []) := by
  by_cases hw : pyWeekday t < 5
  · have h1 : run_daily_tmem_signal st1 env t = (st1, []) := by
      simp [run_daily_tmem_signal, hd hw]
    by_cases hd3 : t.day ≤ 3
    · have h2 : run_monthly_rebalance st1 env t = (st1, []) := by
        simp [run_monthly_rebalance, hm hd3 hw]
      simp [run_all_signals, hw, hd3, h1, h2]
    · simp [run_all_signals, hw, hd3, h1]
  · simp [run_all_signals, hw]

/-- C3 witness: the first tick on Tuesday 2025-12-02 (healthy data, no
channels found, so it marks both periods done) followed by a second tick
the same day. -/
theorem C3_witness :
    run_all_signals ⟨some "2025-12-02", some "2025-12"⟩ envNoCh ⟨2025, 12, 2⟩ =
      (⟨some "2025-12-02", some "2025-12"⟩, []) :=
  C3_second_tick_noop ⟨none, none⟩ envNoCh ⟨2025, 12, 2⟩
    ⟨some "2025-12-02", some "2025-12"⟩ [] (by decide)
    (fun _ => by decide) (fun _ _ => by decide)

/-!
### C8 — monthly grace-window edge
-/

/-- C8 counterexample: Saturday 2026-01-03 is day 3 of a month with no
prior monthly run and a fully healthy environment, yet the tick triggers
nothing at all — day 3 alone does not trigger the monthly cycle; the
weekday gate in `run_all_signals` also applies. -/
theorem C8_counterexample :
    run_all_signals ⟨none, none⟩ envGood ⟨2026, 1, 3⟩ = (⟨none, none⟩, []) := by
  decide

/-- C8 amended: with no prior monthly run recorded, a tick on day 4 or
later never triggers the monthly cycle (the monthly marker is unchanged
and nothing is published to the MEC channel); a tick on day 3 (or any day
≤ 3) triggers it *provided the tick falls on a weekday (Mon-Fri)* and the
environment is healthy. -/
theorem C8_amended (st : RunState) (env : Env) (t : MDate) :
    (4 ≤ t.day →
      (run_all_signals st env t).1.last_monthly_run = st.last_monthly_run ∧
      noMecPub (run_all_signals st env t).2 = true) ∧
    (t.day ≤ 3 → pyWeekday t < 5 → st.last_monthly_run ≠ some (monthKey t) →
      200 ≤ env.spy_data.length → 1 ≤ env.univ.nrows → env.univ.cols ≠ [] →
      (env.tmem_channel = true → env.send_tmem_ok = true) →
      (env.mec_channel = true → env.send_mec_ok = true) →
      (run_all_signals st env t).1.last_monthly_run = some (monthKey t)) := by
  constructor
  · intro h4
    have hnd3 : ¬ t.day ≤ 3 := by omega
    constructor
    · by_cases hw : pyWeekday t < 5
      · simp [run_all_signals, hnd3, hw, run_daily_monthly_marker]
      · simp [run_all_signals, hnd3, hw]
    · by_cases hw : pyWeekday t < 5
      · simp [run_all_signals, hnd3, hw, run_daily_pubs_tmem_only]
      · simp [run_all_signals, hnd3, hw, noMecPub]
  · intro hd3 hw hg hspy hrows hcols htc hmc
    have hmono := run_daily_monthly_marker st env t
    simp [run_all_signals, hd3, hw]
    exact run_monthly_triggers _ _ _ (by rw [hmono]; exact hg) hd3 hspy hrows hcols htc hmc

/-- C8 witness: day 4 (Wednesday 2026-02-04) leaves the monthly marker
alone and publishes nothing to the MEC channel; day 2 (Friday 2026-01-02,
a weekday inside the grace window) sets it. -/
theorem C8_witness :
    ((run_all_signals ⟨none, none⟩ envGood ⟨2026, 2, 4⟩).1.last_monthly_run = none ∧
     noMecPub (run_all_signals ⟨none, none⟩ envGood ⟨2026, 2, 4⟩).2 = true) ∧
    (run_all_signals ⟨none, none⟩ envGood ⟨2026, 1, 2⟩).1.last_monthly_run = some "2026-01" :=
  ⟨(C8_amended ⟨none, none⟩ envGood ⟨2026, 2, 4⟩).1 (by decide),
   (C8_amended ⟨none, none⟩ envGood ⟨2026, 1, 2⟩).2 (by decide) (by decide) (by decide)
     (by decide) (by decide) (by decide) (fun h => rfl) (fun h => rfl)⟩

/-!
### C10 — a TMEM failure in a quarter month blocks MEC
-/

/-- C10: in a quarter-start month, if the TMEM half of the shared `try`
block raises — the SPY series is too short for the 200-day SMA, or the
TMEM publish raises — the whole monthly rebalance aborts: the MEC report
is not published and the monthly marker is unchanged (nothing at all is
published on that tick). -/
theorem C10_tmem_failure_blocks_mec (st : RunState) (env : Env) (t : MDate)
    (hq : isQuarterMonth t.month = true)
    (hfail : env.spy_data.length < 200 ∨
             (env.tmem_channel = true ∧ env.send_tmem_ok = false)) :
    run_monthly_rebalance st env t = (st, []) := by
  by_cases h1 : st.last_monthly_run = some (monthKey t)
  · simp [run_monthly_rebalance, h1]
  · by_cases h2 : 3 < t.day
    · simp [run_monthly_rebalance, h1, h2]
    · by_cases h3 : (decide (env.univ.nrows = 0) || env.univ.cols.isEmpty) = true
      · simp [run_monthly_rebalance, h1, h2, h3]
      · by_cases h4 : env.spy_data = []
        · simp [run_monthly_rebalance, h1, h2, h3, h4]
        · cases hr : compute_tmem_regime env.spy_data 200 with
          | error e => simp [run_monthly_rebalance, h1, h2, h3, h4, hq, hr]
          | ok regime =>
            have hlen : ¬ env.spy_data.length < 200 := by
              intro hl
              unfold compute_tmem_regime at hr
              simp [hl] at hr
            rcases hfail with hf | ⟨hfc, hfs⟩
            · exact absurd hf hlen
            · have h6 : (env.tmem_channel && !env.send_tmem_ok) = true := by
                simp [hfc, hfs]
              cases hp : (if regime.is_risk_on then compute_tmem_top_stocks env.univ 30
                          else .ok []) with
              | error e => simp [run_monthly_rebalance, h1, h2, h3, h4, hq, hr, hp]
              | ok picks => simp [run_monthly_rebalance, h1, h2, h3, h4, hq, hr, hp, h6]

/-- C10 witness: January (a quarter month) with only 100 days of SPY data. -/
theorem C10_witness :
    run_monthly_rebalance ⟨none, none⟩ envShortSpy ⟨2026, 1, 2⟩ = (⟨none, none⟩, []) :=
  C10_tmem_failure_blocks_mec _ _ _ rfl (Or.inl (by decide))

/-!
### Substring machinery for the formatter claims
-/

theorem strMatches_append (n : List Char) :
    ∀ hay s, strMatches n hay = true → strMatches n (hay ++ s) = true := by
  induction n with
  | nil => intro hay s _; rfl
  | cons a as ih =>
    intro hay s h
    cases hay with
    | nil => exact absurd h (by simp [strMatches])
    | cons b bs =>
      simp only [strMatches, Bool.and_eq_true] at h
      simp only [List.cons_append, strMatches, Bool.and_eq_true]
      exact ⟨h.1, ih bs s h.2⟩

theorem strMatches_self (n : List Char) : strMatches n n = true := by
  induction n with
  | nil => rfl
  | cons a as ih => simp [strMatches, ih]

theorem subListB_of_strMatches (n hay : List Char) (h : strMatches n hay = true) :
    subListB n hay = true := by
  cases hay with
  | nil =>
    cases n with
    | nil => rfl
    | cons a as => exact absurd h (by simp [strMatches])
  | cons b bs => simp [subListB, h]

theorem subListB_append_right (n : List Char) :
    ∀ pre hay, subListB n hay = true → subListB n (pre ++ hay) = true := by
  intro pre
  induction pre with
  | nil => intro hay h; simpa using h
  | cons p ps ih =>
    intro hay h
    simp only [List.cons_append, subListB, Bool.or_eq_true]
    exact Or.inr (ih hay h)

theorem subListB_append_left (n : List Char) :
    ∀ hay s, subListB n hay = true → subListB n (hay ++ s) = true := by
  intro hay
  induction hay with
  | nil =>
    intro s h
    simp only [subListB, List.isEmpty_iff] at h
    subst h
    cases s with
    | nil => rfl
    | cons b bs => simp [subListB, strMatches]
  | cons b bs ih =>
    intro s h
    simp only [subListB, Bool.or_eq_true] at h
    simp only [List.cons_append, subListB, Bool.or_eq_true]
    rcases h with h | h
    · exact Or.inl (strMatches_append n (b :: bs) s h)
    · exact Or.inr (ih s h)

theorem str_data_append (s t : String) : (s ++ t).data = s.data ++ t.data := by
  cases s
  cases t
  rfl

theorem str_data_inj {s t : String} (h : s.data = t.data) : s = t := by
  cases s
  cases t
  exact congrArg String.mk h

/-- A substring of `hay` is a substring of `pre ++ hay`. -/
theorem hasSub_mono_right (pre hay needle : String) (h : hasSub hay needle = true) :
    hasSub (pre ++ hay) needle = true := by
  unfold hasSub at *
  rw [str_data_append]
  exact subListB_append_right _ _ _ h

/-- A substring of `hay` is a substring of `hay ++ s`. -/
theorem hasSub_mono_left (hay s needle : String) (h : hasSub hay needle = true) :
    hasSub (hay ++ s) needle = true := by
  unfold hasSub at *
  rw [str_data_append]
  exact subListB_append_left _ _ _ h

theorem hasSub_self (s : String) : hasSub s s = true :=
  subListB_of_strMatches _ _ (strMatches_self s.data)

/-- Cancelling a common prefix and suffix of a string concatenation. -/
theorem str_mid_inj {A s1 s2 R : String} (h : A ++ (s1 ++ R) = A ++ (s2 ++ R)) :
    s1 = s2 := by
  have h1 := congrArg String.data h
  rw [str_data_append, str_data_append, str_data_append, str_data_append] at h1
  exact str_data_inj (List.append_cancel_right (List.append_cancel_left h1))

/-!
### C5 — formatters and the system clock
-/

/-- C5 counterexample: the daily formatter, called twice with the *same*
regime argument but at two different clock dates, produces different
report text — the date stamp comes from `datetime.now()` read inside the
formatter, not from an injected argument. -/
theorem C5_counterexample :
    format_tmem_daily_signal ⟨2025, 12, 1⟩ ⟨true, 100, 90, (5 / 2 : ℚ)⟩ ≠
      format_tmem_daily_signal ⟨2026, 1, 2⟩ ⟨true, 100, 90, (5 / 2 : ℚ)⟩ := by
  decide

/-- C5 amended: each formatter is a deterministic function of its
arguments *plus the date read from the system clock inside the formatter*
(`datetime.now()`); the date is not an injected parameter, so two calls
with identical arguments whose clock dates render differently yield
different report text (the date-stamp line differs). -/
theorem C5_amended :
    (∀ (r : RegimeResult) (d d' : MDate), strftimeBdY d ≠ strftimeBdY d' →
       format_tmem_daily_signal d r ≠ format_tmem_daily_signal d' r) ∧
    (∀ (r : RegimeResult) (picks : List RankedPick) (d d' : MDate),
       strftimeBY d ≠ strftimeBY d' →
       format_tmem_monthly_picks d r picks ≠ format_tmem_monthly_picks d' r picks) ∧
    (∀ (picks : List RankedPick) (d d' : MDate), strftimeBY d ≠ strftimeBY d' →
       format_mec_monthly_picks d picks ≠ format_mec_monthly_picks d' picks) := by
  refine ⟨?_, ?_, ?_⟩
  · intro r d d' hne heq
    unfold format_tmem_daily_signal at heq
    exact hne (str_mid_inj heq)
  · intro r picks d d' hne heq
    unfold format_tmem_monthly_picks at heq
    exact hne (str_mid_inj heq)
  · intro picks d d' hne heq
    unfold format_mec_monthly_picks at heq
    exact hne (str_mid_inj heq)

/-- C5 witness. -/
theorem C5_witness :
    format_mec_monthly_picks ⟨2026, 4, 1⟩ [] ≠ format_mec_monthly_picks ⟨2026, 5, 1⟩ [] :=
  C5_amended.2.2 [] ⟨2026, 4, 1⟩ ⟨2026, 5, 1⟩ (by decide)

/-!
### C9 — empty-picks rendering
-/

/-- In a risk-off report the defensive message is always present. -/
theorem tmem_tail_riskoff_msg (r : RegimeResult) (picks : List RankedPick)
    (h : r.is_risk_on = false) :
    hasSub (tmemMonthlyTail r picks) "No equity positions this month." = true := by
  unfold tmemMonthlyTail
  simp only [h, Bool.false_eq_true, if_false]
  apply hasSub_mono_left
  apply hasSub_mono_right
  unfold defensiveBody
  apply hasSub_mono_right
  apply hasSub_mono_left
  decide

/-- C9 counterexample: the MEC rebalance formatter on an *empty* picks
list still renders the fixed-width table section (an empty table: header
and separator, no rows) and contains no "no eligible positions" or
"defensive" message anywhere. -/
theorem C9_counterexample :
    hasSub (format_mec_monthly_picks ⟨2026, 2, 2⟩ []) headerLine = true ∧
    hasSub (format_mec_monthly_picks ⟨2026, 2, 2⟩ []) "No equity positions" = false ∧
    hasSub (format_mec_monthly_picks ⟨2026, 2, 2⟩ []) "no eligible" = false ∧
    hasSub (format_mec_monthly_picks ⟨2026, 2, 2⟩ []) "defensive" = false := by
  refine ⟨by decide, by decide, by decide, by decide⟩

/-- C9 amended: the explicit "fully defensive / no equity positions"
message is keyed to the *regime*, not to the picks list: the TMEM monthly
formatter renders it exactly when the regime is risk-off (then the output
ignores the picks entirely), while under risk-on it renders the table even
for empty picks; the MEC formatter always renders the table — empty picks
give a header-only table, never a message. -/
theorem C9_amended (now : MDate) (r : RegimeResult) (picks : List RankedPick) :
    (r.is_risk_on = false →
       format_tmem_monthly_picks now r picks = format_tmem_monthly_picks now r [] ∧
       hasSub (format_tmem_monthly_picks now r picks)
         "No equity positions this month." = true) ∧
    (r.is_risk_on = true →
       hasSub (format_tmem_monthly_picks now r picks) headerLine = true) ∧
    hasSub (format_mec_monthly_picks now picks) headerLine = true := by
  refine ⟨?_, ?_, ?_⟩
  · intro h
    constructor
    · unfold format_tmem_monthly_picks tmemMonthlyTail
      simp [h]
    · unfold format_tmem_monthly_picks
      apply hasSub_mono_right
      apply hasSub_mono_right
      exact tmem_tail_riskoff_msg r picks h
  · intro h
    unfold format_tmem_monthly_picks
    apply hasSub_mono_right
    apply hasSub_mono_right
    unfold tmemMonthlyTail
    simp only [h, if_true]
    apply hasSub_mono_left
    apply hasSub_mono_right
    apply hasSub_mono_right
    apply hasSub_mono_right
    apply hasSub_mono_left
    exact hasSub_self _
  · unfold format_mec_monthly_picks
    apply hasSub_mono_right
    apply hasSub_mono_right
    unfold mecTail
    apply hasSub_mono_left
    apply hasSub_mono_right
    apply hasSub_mono_right
    apply hasSub_mono_left
    exact hasSub_self _

/-- C9 witness. -/
theorem C9_witness :
    (format_tmem_monthly_picks ⟨2026, 7, 1⟩ ⟨false, 90, 100, -10⟩ [⟨1, "AAPL", 50, 10⟩] =
       format_tmem_monthly_picks ⟨2026, 7, 1⟩ ⟨false, 90, 100, -10⟩ []) ∧
    hasSub (format_tmem_monthly_picks ⟨2026, 7, 1⟩ ⟨true, 110, 100, 10⟩ []) headerLine
      = true ∧
    hasSub (format_mec_monthly_picks ⟨2026, 7, 1⟩ []) headerLine = true :=
  ⟨((C9_amended ⟨2026, 7, 1⟩ ⟨false, 90, 100, -10⟩ [⟨1, "AAPL", 50, 10⟩]).1 rfl).1,
   (C9_amended ⟨2026, 7, 1⟩ ⟨true, 110, 100, 10⟩ []).2.1 rfl,
   (C9_amended ⟨2026, 7, 1⟩ ⟨true, 110, 100, 10⟩ []).2.2⟩

/-!
### C6 — shape of the ranking output
-/

theorem round_mono_q {x y : ℚ} (h : x ≤ y) : round x ≤ round y := by
  rw [round_eq, round_eq]
  exact Int.floor_le_floor (by linarith)

theorem round2_mono {x y : ℚ} (h : x ≤ y) : round2 x ≤ round2 y := by
  unfold round2
  have h1 : round (x * 100) ≤ round (y * 100) := round_mono_q (by nlinarith)
  have h2 : ((round (x * 100) : ℤ) : ℚ) ≤ ((round (y * 100) : ℤ) : ℚ) := by exact_mod_cast h1
  linarith

theorem chainDescB_insert (l : List (TickerCol × ℚ)) (p : TickerCol × ℚ)
    (h : chainDescB l = true) : chainDescB (insertByScore p l) = true := by
  induction l with
  | nil => rfl
  | cons q t ih =>
    unfold insertByScore
    by_cases hc : q.2 ≤ p.2
    · simp only [if_pos hc]
      simp only [chainDescB, Bool.and_eq_true, decide_eq_true_eq]
      exact ⟨hc, h⟩
    · simp only [if_neg hc]
      cases t with
      | nil =>
        have hpq : p.2 ≤ q.2 := le_of_not_le hc
        simp [insertByScore, chainDescB, hpq]
      | cons r s =>
        simp only [chainDescB, Bool.and_eq_true, decide_eq_true_eq] at h
        obtain ⟨hrq, hchain⟩ := h
        have hins := ih hchain
        by_cases hc2 : r.2 ≤ p.2
        · simp only [insertByScore, if_pos hc2] at hins ⊢
          simp only [chainDescB, Bool.and_eq_true, decide_eq_true_eq] at hins ⊢
          exact ⟨le_of_not_le hc, hins⟩
        · simp only [insertByScore, if_neg hc2] at hins ⊢
          simp only [chainDescB, Bool.and_eq_true, decide_eq_true_eq]
          exact ⟨hrq, hins⟩

theorem chainDescB_sort (l : List (TickerCol × ℚ)) :
    chainDescB (sortByScoreDesc l) = true := by
  induction l with
  | nil => rfl
  | cons a t ih => exact chainDescB_insert _ a ih

theorem chainDescB_take (l : List (TickerCol × ℚ)) :
    ∀ n, chainDescB l = true → chainDescB (l.take n) = true := by
  induction l with
  | nil => intro n _; cases n <;> rfl
  | cons a t ih =>
    intro n h
    cases n with
    | zero => rfl
    | succ k =>
      cases t with
      | nil => cases k <;> rfl
      | cons b s =>
        simp only [chainDescB, Bool.and_eq_true, decide_eq_true_eq] at h
        cases k with
        | zero => rfl
        | succ m =>
          have ht := ih (m + 1) h.2
          rw [List.take_succ_cons] at ht
          rw [List.take_succ_cons, List.take_succ_cons]
          simp only [chainDescB, Bool.and_eq_true, decide_eq_true_eq]
          exact ⟨h.1, ht⟩

theorem momDescB_buildPicks (nr : ℕ) :
    ∀ (k : ℕ) (l : List (TickerCol × ℚ)), chainDescB l = true →
      momDescB (buildPicks nr k l) = true := by
  intro k l
  induction l generalizing k with
  | nil => intro _; rfl
  | cons hd t ih =>
    intro h
    obtain ⟨c, s⟩ := hd
    cases t with
    | nil => rfl
    | cons hd2 t2 =>
      obtain ⟨c2, s2⟩ := hd2
      simp only [chainDescB, Bool.and_eq_true, decide_eq_true_eq] at h
      have hmom : round2 (s2 * 100) ≤ round2 (s * 100) :=
        round2_mono (by nlinarith [h.1])
      have hrest := ih (k + 1) (by
        cases t2 with
        | nil => rfl
        | cons hd3 t3 =>
          simp only [chainDescB, Bool.and_eq_true, decide_eq_true_eq] at h ⊢
          exact h.2)
      simp only [buildPicks, momDescB, Bool.and_eq_true, decide_eq_true_eq] at hrest ⊢
      exact ⟨hmom, hrest⟩

theorem ranksFrom_buildPicks (nr : ℕ) :
    ∀ (k : ℕ) (l : List (TickerCol × ℚ)), ranksFrom k (buildPicks nr k l) = true := by
  intro k l
  induction l generalizing k with
  | nil => rfl
  | cons hd t ih =>
    obtain ⟨c, s⟩ := hd
    simp [buildPicks, ranksFrom, ih (k + 1)]

theorem length_buildPicks (nr : ℕ) :
    ∀ (k : ℕ) (l : List (TickerCol × ℚ)), (buildPicks nr k l).length = l.length := by
  intro k l
  induction l generalizing k with
  | nil => rfl
  | cons hd t ih =>
    obtain ⟨c, s⟩ := hd
    simp [buildPicks, ih (k + 1)]

unseal Rat.add Rat.sub Rat.mul Rat.inv in
/-- C6 counterexample: two eligible tickers with equal momentum produce a
ranked list whose momentum scores are *not* strictly descending — the sort
is only weakly descending, ties are possible. -/
theorem C6_counterexample :
    compute_tmem_top_stocks cexTable 30 =
      .ok [⟨1, "AAA", 100, 10⟩, ⟨2, "BBB", 100, 10⟩] ∧
    momStrictDescB [⟨1, "AAA", 100, 10⟩, ⟨2, "BBB", 100, 10⟩] = false := by
  constructor
  · decide
  · decide

/-- C6 amended: for every universe table with at least one row and every
`topN`, both ranking functions return (without error) a list sorted in
*weakly* descending momentum order — equal momentum scores may tie — with
contiguous ranks starting at 1 and length at most `topN`; fewer eligible
tickers than `topN` just give a shorter list.  (A zero-row table instead
raises an index error — see C4.) -/
theorem C6_amended (t : UniverseTable) (n : ℕ) (h : 1 ≤ t.nrows) :
    (∃ l, compute_tmem_top_stocks t n = .ok l ∧ momDescB l = true ∧
          ranksFrom 1 l = true ∧ l.length ≤ n) ∧
    (∃ l, compute_mec_top_stocks t n = .ok l ∧ momDescB l = true ∧
          ranksFrom 1 l = true ∧ l.length ≤ n) := by
  have h0 : t.nrows ≠ 0 := by omega
  constructor
  · refine ⟨buildPicks t.nrows 1 ((sortByScoreDesc (scoredTmem t)).take n),
      ?_, ?_, ?_, ?_⟩
    · simp [compute_tmem_top_stocks, h0]
    · exact momDescB_buildPicks _ _ _ (chainDescB_take _ n (chainDescB_sort _))
    · exact ranksFrom_buildPicks _ _ _
    · rw [length_buildPicks, List.length_take]
      exact min_le_left _ _
  · refine ⟨buildPicks t.nrows 1 ((sortByScoreDesc (scoredMec t)).take n),
      ?_, ?_, ?_, ?_⟩
    · simp [compute_mec_top_stocks, h0]
    · exact momDescB_buildPicks _ _ _ (chainDescB_take _ n (chainDescB_sort _))
    · exact ranksFrom_buildPicks _ _ _
    · rw [length_buildPicks, List.length_take]
      exact min_le_left _ _

/-- C6 witness. -/
theorem C6_witness :
    (∃ l, compute_tmem_top_stocks ⟨1, []⟩ 7 = .ok l ∧ momDescB l = true ∧
          ranksFrom 1 l = true ∧ l.length ≤ 7) ∧
    (∃ l, compute_mec_top_stocks ⟨1, []⟩ 7 = .ok l ∧ momDescB l = true ∧
          ranksFrom 1 l = true ∧ l.length ≤ 7) :=
  C6_amended ⟨1, []⟩ 7 (by decide)
